import Mathlib

/-!
Verification of the Momentum Transcription Service request pipeline
(source: src/main.py).

Modelling choices (shallow embedding):
* Python strings are embedded as lists of characters (PyStr), so
  str.startswith is List.isPrefixOf, the in operator is List.IsInfix,
  str.strip is dropping whitespace at both ends, and " ".join is
  List.intercalate with a single-space separator.
* Python floats are embedded as rationals; round(x, 2) is embedded as
  rounding x * 100 to the nearest integer and dividing by 100.  The
  claims exercised here never hit a .xx5 tie, where Python banker
  rounding and the Mathlib round function could differ.
* The POST /transcribe handler (transcribe_audio, src/main.py lines
  100-210) is embedded as a pure function of the request together with
  a World oracle supplying the environment-dependent outcomes: the name
  the temporary-file facility hands out, the result of the
  model.transcribe call (success with raw segments and info, or a
  failure carrying the exception text), and whether os.unlink succeeds.
  The handler returns the HTTP-level result paired with the ordered
  trace of resource events (temporary-file creation, inference
  invocation with its parameters, deletion attempt), so resource
  lifecycle claims are statements about the trace.
-/

namespace Momentum

/-- Python strings, embedded as lists of characters. -/
abbrev PyStr := List Char

/-- Python truthiness of an optional string: None and the empty string
are falsy, every other string is truthy. -/
def pyTruthy : Option PyStr → Bool
  | none => false
  | some s => !s.isEmpty

/-- Python str.strip with no argument: remove whitespace from both ends.
(Lean Char.isWhitespace covers space, tab, CR, LF; Python additionally
strips vertical tab and form feed, which no claim exercises.) -/
def pyStrip (s : PyStr) : PyStr :=
  ((s.dropWhile Char.isWhitespace).reverse.dropWhile Char.isWhitespace).reverse

/-- Python round(x, 2): round to 2 decimal places. -/
def round2 (q : ℚ) : ℚ :=
  ((round (q * 100) : ℤ) : ℚ) / 100

/-- A raw segment as produced by the inference capability: start time,
end time and text.  The Python attribute named end is called stop here
because end is a Lean keyword. -/
structure RawSegment where
  start : ℚ
  stop : ℚ
  text : PyStr
deriving DecidableEq

/-- The info object produced alongside the segments: audio duration in
seconds and detected language code. -/
structure TransInfo where
  duration : ℚ
  language : PyStr
deriving DecidableEq

/-- A segment of the JSON response (src/main.py lines 175-179):
start and end rounded to 2 decimals, text stripped. -/
structure OutSegment where
  start : ℚ
  stop : ℚ
  text : PyStr
deriving DecidableEq

/-- The JSON response body of a successful transcription
(src/main.py lines 185-198).  The message key is only present in the
no-speech case, hence an Option here. -/
structure TranscribeResponse where
  text : PyStr
  segments : List OutSegment
  duration : ℚ
  language : PyStr
  message : Option PyStr
deriving DecidableEq

/-- The origin substrings accepted by the auth fallback
(src/main.py lines 67-71). -/
def allowedOriginSubstrings : List PyStr :=
  ["localhost".toList, "dailymomentum.io".toList, "vercel.app".toList]

/-- verify_auth from src/main.py lines 46-74.  API_KEY is passed
explicitly (in the source it is module-level state read from the
environment at startup).  The source returns True from nested ifs;
the nesting is flattened into Boolean conjunctions: authorization must
be truthy, start with the Bearer prefix, and the slice from index 7
onward must equal the key; the origin branch requires a truthy origin
containing one of the allowed substrings. -/
def verify_auth (apiKey : Option PyStr) (authorization : Option PyStr)
    (origin : Option PyStr) : Bool :=
  if pyTruthy apiKey = false then
    true
  else if (pyTruthy authorization
      && ("Bearer ".toList).isPrefixOf (authorization.getD [])
      && ((authorization.getD []).drop 7 == apiKey.getD [])) then
    true
  else if (pyTruthy origin
      && allowedOriginSubstrings.any
           (fun allowed => decide (allowed <:+: origin.getD []))) then
    true
  else
    false

/-- The content-type acceptance test of src/main.py line 133:
starts with audio/ or equals application/octet-stream. -/
def acceptsContentType (ct : PyStr) : Bool :=
  ("audio/".toList).isPrefixOf ct || ct == "application/octet-stream".toList

/-- ext_map from src/main.py lines 140-149: content type to temp-file
suffix. -/
def ext_map : List (PyStr × PyStr) :=
  [("audio/webm".toList, ".webm".toList),
   ("audio/wav".toList, ".wav".toList),
   ("audio/wave".toList, ".wav".toList),
   ("audio/mp3".toList, ".mp3".toList),
   ("audio/mpeg".toList, ".mp3".toList),
   ("audio/ogg".toList, ".ogg".toList),
   ("audio/flac".toList, ".flac".toList),
   ("application/octet-stream".toList, ".webm".toList)]

/-- ext_map.get(content_type, ".webm") from src/main.py line 150. -/
def suffixFor (ct : PyStr) : PyStr :=
  (ext_map.lookup ct).getD (".webm".toList)

/-- The aggregation of raw segments and info into the response body,
src/main.py lines 169-198: collect raw texts and per-segment rounded
and stripped entries, join the raw texts with single spaces and strip;
if the joined text is empty return the no-speech shape (duration taken
from info unrounded), otherwise the normal shape (duration rounded to
2 decimals). -/
def aggregate (segments : List RawSegment) (info : Option TransInfo) :
    TranscribeResponse :=
  let text_parts := segments.map RawSegment.text
  let segment_list := segments.map (fun s =>
    OutSegment.mk (round2 s.start) (round2 s.stop) (pyStrip s.text))
  let full_text := pyStrip (List.intercalate (" ".toList) text_parts)
  if full_text = [] then
    { text := []
      segments := []
      duration := match info with | some i => i.duration | none => 0
      language := match info with | some i => i.language | none => "unknown".toList
      message := some ("No speech detected in audio".toList) }
  else
    { text := full_text
      segments := segment_list
      duration := match info with | some i => round2 i.duration | none => 0
      language := match info with | some i => i.language | none => "unknown".toList
      message := none }

/-- Resource events of one request, in order of occurrence:
acquire is the creation of the named temporary file with its suffix
(src/main.py line 153), invoke is the model.transcribe call with its
beam size, VAD-filter flag and minimum silence duration in ms
(lines 162-167), release is the os.unlink attempt in the finally block
together with whether the deletion succeeded (lines 207-210). -/
inductive Event where
  | acquire (path : PyStr) (suffix : PyStr)
  | invoke (path : PyStr) (beam_size : ℕ) (vad_filter : Bool)
      (min_silence_duration_ms : ℕ)
  | release (path : PyStr) (ok : Bool)
deriving DecidableEq

/-- The HTTP-level outcome of a request: a JSON body with status 200,
or an HTTPException with a status code and a detail string. -/
inductive HttpResult where
  | ok (resp : TranscribeResponse)
  | err (status : ℕ) (detail : PyStr)
deriving DecidableEq

/-- A request to POST /transcribe: the Origin header, the Authorization
header, the content type of the uploaded file (None when the part has
no content type), and the uploaded bytes. -/
structure UploadRequest where
  origin : Option PyStr
  authorization : Option PyStr
  content_type : Option PyStr
  content : List ℕ
deriving DecidableEq

/-- The environment-dependent outcomes of one request: the path handed
out by the temporary-file facility, the outcome of the
model.transcribe call, and whether os.unlink succeeds. -/
structure World where
  tmpName : PyStr
  transcription : Except PyStr (List RawSegment × Option TransInfo)
  unlinkOk : Bool

/-- transcribe_audio from src/main.py lines 100-210, as a function of
the configured API key, the world oracle and the request.  Faithful
control flow: auth check (401), content-type check against the raw
content type defaulted to the empty string (400), creation of the named
temporary file, zero-length check (400) raised inside the with block
and before the try block so that no release event follows it, then the
single model.transcribe call with fixed parameters inside
try-except-finally: a failure becomes 500 with the exception text
appended to the prefix, and the finally block attempts os.unlink with
any deletion failure swallowed (the result does not depend on
unlinkOk). -/
def transcribe_audio (apiKey : Option PyStr) (w : World)
    (req : UploadRequest) : HttpResult × List Event :=
  if verify_auth apiKey req.authorization req.origin = false then
    (HttpResult.err 401
      ("Authentication required. Provide API key via Authorization: Bearer <key>".toList),
     [])
  else if acceptsContentType (req.content_type.getD []) = false then
    (HttpResult.err 400
      ("Invalid content type: ".toList ++ req.content_type.getD []
        ++ ". Expected audio file.".toList),
     [])
  else if req.content.length = 0 then
    (HttpResult.err 400 ("Empty audio file".toList),
     [Event.acquire w.tmpName (suffixFor (req.content_type.getD []))])
  else
    match w.transcription with
    | Except.error e =>
        (HttpResult.err 500 ("Transcription failed: ".toList ++ e),
         [Event.acquire w.tmpName (suffixFor (req.content_type.getD [])),
          Event.invoke w.tmpName 5 true 500,
          Event.release w.tmpName w.unlinkOk])
    | Except.ok (segments, info) =>
        (HttpResult.ok (aggregate segments info),
         [Event.acquire w.tmpName (suffixFor (req.content_type.getD [])),
          Event.invoke w.tmpName 5 true 500,
          Event.release w.tmpName w.unlinkOk])


/-- Helper: a list starts with the Bearer prefix and its drop-7 slice
equals key exactly when it is the Bearer prefix followed by key. -/
lemma bearer_append_iff (a key : PyStr) :
    (("Bearer ".toList).isPrefixOf a = true ∧ a.drop 7 = key) ↔
      a = "Bearer ".toList ++ key := by
  constructor
  · rintro ⟨h1, h2⟩
    rw [List.isPrefixOf_iff_prefix] at h1
    obtain ⟨t, ht⟩ := h1
    subst ht
    rw [show (7:ℕ) = ("Bearer ".toList).length from by decide, List.drop_left] at h2
    rw [h2]
  · rintro rfl
    refine ⟨?_, ?_⟩
    · rw [List.isPrefixOf_iff_prefix]
      exact ⟨key, rfl⟩
    · rw [show (7:ℕ) = ("Bearer ".toList).length from by decide, List.drop_left]

/-- Helper: the API-key branch of verify_auth succeeds exactly when the
authorization header is the Bearer prefix followed by the key. -/
lemma bearer_cond_iff (auth : Option PyStr) (key : PyStr) :
    (pyTruthy auth && ("Bearer ".toList).isPrefixOf (auth.getD [])
      && ((auth.getD []).drop 7 == key)) = true ↔
      auth = some ("Bearer ".toList ++ key) := by
  cases auth with
  | none => simp [pyTruthy]
  | some a =>
    simp only [pyTruthy, Option.getD, Bool.and_eq_true, beq_iff_eq, Option.some.injEq]
    constructor
    · rintro ⟨⟨_, h1⟩, h2⟩
      exact (bearer_append_iff a key).mp ⟨h1, h2⟩
    · rintro rfl
      obtain ⟨h1, h2⟩ := (bearer_append_iff ("Bearer ".toList ++ key) key).mpr rfl
      refine ⟨⟨?_, h1⟩, h2⟩
      simp [show "Bearer ".toList = 'B' :: "earer ".toList from rfl]

/-- Helper: the origin branch of verify_auth succeeds exactly when the
origin header is present and contains one of the allowed substrings. -/
lemma origin_cond_iff (origin : Option PyStr) :
    (pyTruthy origin && allowedOriginSubstrings.any
        (fun allowed => decide (allowed <:+: origin.getD []))) = true ↔
      ∃ o, origin = some o ∧
        ("localhost".toList <:+: o ∨ "dailymomentum.io".toList <:+: o ∨
          "vercel.app".toList <:+: o) := by
  cases origin with
  | none => simp [pyTruthy]
  | some o =>
    simp only [pyTruthy, Option.getD, Bool.and_eq_true, Option.some.injEq,
      allowedOriginSubstrings, List.any_cons, List.any_nil, Bool.or_eq_true,
      decide_eq_true_eq, Bool.false_eq_true, or_false]
    constructor
    · rintro ⟨_, h⟩
      exact ⟨o, rfl, h⟩
    · rintro ⟨o, rfl, h⟩
      refine ⟨?_, h⟩
      cases o with
      | nil =>
        exfalso
        rcases h with h | h | h <;>
          · rw [List.infix_nil] at h
            exact absurd h (by decide)
      | cons c cs => simp

/-- C1 (amended): for every raw segment sequence and info, the response
text equals the trimmed, space-joined concatenation of the raw
(untrimmed) segment texts in order, and the text is empty iff the
response segments sequence is empty; in the scenario from the claim the
raw texts join to three spaces between the words, so the result is
text hello-space-space-space-world with trimmed per-segment texts,
duration 2.5 and language en. -/
theorem C1_text_is_trimmed_join_of_raw_segment_texts :
    (∀ segments info,
      (aggregate segments info).text =
        pyStrip (List.intercalate (" ".toList) (segments.map RawSegment.text))
      ∧ ((aggregate segments info).text = [] ↔ (aggregate segments info).segments = []))
    ∧ aggregate
        [RawSegment.mk 0 (12/10) ("hello ".toList),
         RawSegment.mk (12/10) (5/2) (" world".toList)]
        (some (TransInfo.mk (5/2) ("en".toList))) =
      TranscribeResponse.mk ("hello   world".toList)
        [OutSegment.mk 0 (12/10) ("hello".toList),
         OutSegment.mk (12/10) (5/2) ("world".toList)]
        (5/2) ("en".toList) none := by
  constructor
  · intro segments info
    simp only [aggregate]
    by_cases h : pyStrip (List.intercalate (" ".toList) (segments.map RawSegment.text)) = []
    · rw [if_pos h]
      exact ⟨h.symm, by simp⟩
    · rw [if_neg h]
      refine ⟨rfl, ?_, ?_⟩
      · intro ht
        exact absurd ht h
      · intro hs
        exfalso
        rw [List.map_eq_nil_iff] at hs
        apply h
        rw [hs]
        rfl
  · simp only [aggregate, List.map]
    rw [show pyStrip (List.intercalate (" ".toList)
      [("hello ".toList), (" world".toList)]) = "hello   world".toList from by decide]
    rw [if_neg (by decide)]
    simp only [TranscribeResponse.mk.injEq, OutSegment.mk.injEq, List.cons.injEq,
      List.nil_eq, and_true, true_and]
    refine ⟨⟨⟨?_, ?_, by decide⟩, ⟨?_, ?_, by decide⟩⟩, ?_⟩ <;>
      norm_num [round2, round_eq]

/-- C1 counterexample: on the exact segments of the claim the code
produces the text hello-space-space-space-world, because the raw texts
are joined before any trimming, so the claimed value hello-space-world
is refuted (the decide term evaluates the claimed equality to false). -/
theorem C1_trimmed_join_counterexample :
    (aggregate
      [RawSegment.mk 0 (12/10) ("hello ".toList),
       RawSegment.mk (12/10) (5/2) (" world".toList)]
      (some (TransInfo.mk (5/2) ("en".toList)))).text = "hello   world".toList
    ∧ decide ((aggregate
      [RawSegment.mk 0 (12/10) ("hello ".toList),
       RawSegment.mk (12/10) (5/2) (" world".toList)]
      (some (TransInfo.mk (5/2) ("en".toList)))).text = "hello world".toList) = false := by
  constructor
  · simp only [aggregate, List.map]
    rw [show pyStrip (List.intercalate (" ".toList)
      [("hello ".toList), (" world".toList)]) = "hello   world".toList from by decide]
    rw [if_neg (by decide)]
  · decide

/-- C2 (code bug evaluated): a request with an accepted content type
and a zero-length body produces the 400 Empty-audio-file rejection
while the event trace holds exactly the temporary-file creation and no
release event: the zero-length check is raised inside the with block
and before the try-finally, so the scoped file is never deleted on
this exit path. -/
theorem C2_empty_body_leaks_scoped_file :
    transcribe_audio none
      (World.mk ("/tmp/a.webm".toList) (Except.ok ([], none)) true)
      (UploadRequest.mk none none (some ("audio/webm".toList)) []) =
    (HttpResult.err 400 ("Empty audio file".toList),
     [Event.acquire ("/tmp/a.webm".toList) (".webm".toList)]) := by
  decide

/-- C3 (amended): every zero-length-body request that passes auth and
content-type validation is rejected with 400 Empty-audio-file before
transcription is invoked (the trace holds no invoke event), but the
scoped temporary file has already been created at the time of the
rejection: the trace is exactly the one acquire event. -/
theorem C3_empty_body_rejected_before_inference :
    ∀ apiKey w req ct, req.content_type = some ct →
      verify_auth apiKey req.authorization req.origin = true →
      acceptsContentType ct = true →
      req.content = [] →
      transcribe_audio apiKey w req =
        (HttpResult.err 400 ("Empty audio file".toList),
         [Event.acquire w.tmpName (suffixFor ct)]) := by
  intro k w req ct hct hauth hacc hbody
  simp only [transcribe_audio, hct, Option.getD_some]
  rw [if_neg (by simp [hauth]), if_neg (by simp [hacc]), if_pos (by simp [hbody])]

/-- C3 witness: the amended statement evaluated on a concrete
zero-length wav upload. -/
theorem C3_empty_body_witness :
    transcribe_audio none
      (World.mk ("/tmp/u.wav".toList) (Except.ok ([], none)) true)
      (UploadRequest.mk none none (some ("audio/wav".toList)) []) =
    (HttpResult.err 400 ("Empty audio file".toList),
     [Event.acquire ("/tmp/u.wav".toList) (".wav".toList)]) :=
  (C3_empty_body_rejected_before_inference none
    (World.mk ("/tmp/u.wav".toList) (Except.ok ([], none)) true)
    (UploadRequest.mk none none (some ("audio/wav".toList)) [])
    ("audio/wav".toList) rfl (by decide) (by decide) rfl).trans (by decide)

/-- C3 counterexample: on a concrete zero-length ogg upload the
rejection does fire, but the event trace is nonempty (the decide term
evaluates trace-emptiness to false): it already holds the
temporary-file creation, refuting the claim that no scoped temporary
file exists at the time of the rejection. -/
theorem C3_file_acquired_before_rejection :
    transcribe_audio none
      (World.mk ("/tmp/c.ogg".toList) (Except.ok ([], none)) true)
      (UploadRequest.mk none none (some ("audio/ogg".toList)) []) =
    (HttpResult.err 400 ("Empty audio file".toList),
     [Event.acquire ("/tmp/c.ogg".toList) (".ogg".toList)])
    ∧ decide ((transcribe_audio none
      (World.mk ("/tmp/c.ogg".toList) (Except.ok ([], none)) true)
      (UploadRequest.mk none none (some ("audio/ogg".toList)) [])).2 = []) = false := by
  exact ⟨by decide, by decide⟩

/-- C4 (amended): whenever the joined text is empty after trimming, the
result carries empty text, an empty segments sequence and the fixed
no-speech message, reports duration unrounded from info (the 2-decimal
rounding happens only in the non-empty branch) and language from info
when info is present, and defaults duration to 0 and language to
unknown when info is absent; the scenario of the claim, with duration
3.0, is unaffected by rounding and evaluates as stated. -/
theorem C4_no_speech_branch :
    (∀ segments info,
      pyStrip (List.intercalate (" ".toList) (segments.map RawSegment.text)) = [] →
        (aggregate segments info).text = []
        ∧ (aggregate segments info).segments = []
        ∧ (aggregate segments info).message = some ("No speech detected in audio".toList)
        ∧ (∀ i, info = some i →
            (aggregate segments info).duration = i.duration
            ∧ (aggregate segments info).language = i.language)
        ∧ (info = none →
            (aggregate segments info).duration = 0
            ∧ (aggregate segments info).language = "unknown".toList))
    ∧ aggregate [] (some (TransInfo.mk 3 ("en".toList))) =
        TranscribeResponse.mk [] [] 3 ("en".toList)
          (some ("No speech detected in audio".toList)) := by
  constructor
  · intro segments info h
    have hagg : aggregate segments info =
        { text := []
          segments := []
          duration := match info with | some i => i.duration | none => 0
          language := match info with | some i => i.language | none => "unknown".toList
          message := some ("No speech detected in audio".toList) } := by
      simp only [aggregate]
      rw [if_pos h]
    refine ⟨by rw [hagg], by rw [hagg], by rw [hagg], ?_, ?_⟩
    · rintro i rfl
      rw [hagg]
      exact ⟨rfl, rfl⟩
    · rintro rfl
      rw [hagg]
      exact ⟨rfl, rfl⟩
  · rfl

/-- C4 witness: the no-speech branch evaluated at the empty segment
sequence with info duration 3 and language en. -/
theorem C4_no_speech_witness :
    pyStrip (List.intercalate (" ".toList) (List.map RawSegment.text [])) = ([] : PyStr)
    ∧ (aggregate [] (some (TransInfo.mk 3 ("en".toList)))).message
        = some ("No speech detected in audio".toList) :=
  ⟨by decide,
   (C4_no_speech_branch.1 [] (some (TransInfo.mk 3 ("en".toList))) (by decide)).2.2.1⟩

/-- C4 counterexample: with zero segments and info duration 3.456 the
code reports duration 3.456 unrounded, while rounding to 2 decimals
would give 3.46; the strict inequality shows the two values differ, so
the claim that the no-speech result reports the duration rounded to 2
decimal places is refuted. -/
theorem C4_unrounded_duration_counterexample :
    (aggregate [] (some (TransInfo.mk (3456/1000) ("en".toList)))).duration = 3456/1000
    ∧ round2 ((3456:ℚ)/1000) = 3460/1000
    ∧ ((3456:ℚ)/1000) < 3460/1000 := by
  refine ⟨rfl, ?_, by norm_num⟩
  norm_num [round2, round_eq]

/-- C5: verify_auth authorizes unconditionally when the configured key
is absent or empty; with a nonempty configured key it authorizes
exactly when the authorization header equals the Bearer prefix followed
by the key, or the origin header is present and contains localhost,
dailymomentum.io or vercel.app as a substring; it is a total Boolean
function, so it never raises. -/
theorem C5_verify_auth_characterization :
    (∀ auth origin, verify_auth none auth origin = true)
    ∧ (∀ auth origin, verify_auth (some []) auth origin = true)
    ∧ (∀ key auth origin, key ≠ [] →
        (verify_auth (some key) auth origin = true ↔
          auth = some ("Bearer ".toList ++ key)
          ∨ ∃ o, origin = some o ∧
              ("localhost".toList <:+: o ∨ "dailymomentum.io".toList <:+: o ∨
                "vercel.app".toList <:+: o))) := by
  refine ⟨fun auth origin => rfl, fun auth origin => rfl, ?_⟩
  intro key auth origin hkey
  simp only [verify_auth, Option.getD_some]
  rw [if_neg (show ¬(pyTruthy (some key) = false) by
    cases key with
    | nil => exact absurd rfl hkey
    | cons c cs => simp [pyTruthy])]
  by_cases h1 : (pyTruthy auth && ("Bearer ".toList).isPrefixOf (auth.getD [])
      && ((auth.getD []).drop 7 == key)) = true
  · rw [if_pos h1]
    exact iff_of_true rfl (Or.inl ((bearer_cond_iff auth key).mp h1))
  · rw [if_neg h1]
    by_cases h2 : (pyTruthy origin && allowedOriginSubstrings.any
        (fun allowed => decide (allowed <:+: origin.getD []))) = true
    · rw [if_pos h2]
      exact iff_of_true rfl (Or.inr ((origin_cond_iff origin).mp h2))
    · rw [if_neg h2]
      constructor
      · intro hf
        exact absurd hf (by simp)
      · rintro (ha | ho)
        · exact absurd ((bearer_cond_iff auth key).mpr ha) h1
        · exact absurd ((origin_cond_iff origin).mpr ho) h2

/-- C5 witness: with configured key k, the credential Bearer-space-k is
authorized. -/
theorem C5_auth_witness :
    ("k".toList ≠ ([] : PyStr)) ∧
      verify_auth (some ("k".toList)) (some ("Bearer k".toList)) none = true :=
  ⟨by decide,
   (C5_verify_auth_characterization.2.2 ("k".toList) (some ("Bearer k".toList)) none
      (by decide)).mpr (Or.inl (by decide))⟩

/-- C6: the validator accepts exactly the content types that start with
audio-slash or equal application/octet-stream; a rejected request gets
400 with the offending type echoed verbatim inside the fixed detail
text and no resource event; an accepted request creates the temporary
file with the suffix mapped by the fixed table, and any content type
missing from the table gets the webm suffix. -/
theorem C6_content_type_validation :
    (∀ ct, acceptsContentType ct = true ↔
      ("audio/".toList <+: ct ∨ ct = "application/octet-stream".toList))
    ∧ (∀ apiKey w req ct, req.content_type = some ct →
        verify_auth apiKey req.authorization req.origin = true →
        (acceptsContentType ct = false →
          transcribe_audio apiKey w req =
            (HttpResult.err 400 ("Invalid content type: ".toList ++ ct
              ++ ". Expected audio file.".toList), []))
        ∧ (acceptsContentType ct = true →
            Event.acquire w.tmpName (suffixFor ct) ∈ (transcribe_audio apiKey w req).2))
    ∧ suffixFor ("audio/webm".toList) = ".webm".toList
    ∧ suffixFor ("audio/wav".toList) = ".wav".toList
    ∧ suffixFor ("audio/wave".toList) = ".wav".toList
    ∧ suffixFor ("audio/mp3".toList) = ".mp3".toList
    ∧ suffixFor ("audio/mpeg".toList) = ".mp3".toList
    ∧ suffixFor ("audio/ogg".toList) = ".ogg".toList
    ∧ suffixFor ("audio/flac".toList) = ".flac".toList
    ∧ suffixFor ("application/octet-stream".toList) = ".webm".toList
    ∧ (∀ ct, ext_map.lookup ct = none → suffixFor ct = ".webm".toList) := by
  refine ⟨?_, ?_, by decide, by decide, by decide, by decide, by decide, by decide,
    by decide, by decide, ?_⟩
  · intro ct
    simp [acceptsContentType, List.isPrefixOf_iff_prefix]
  · intro k w req ct hct hauth
    obtain ⟨tn, tr, uo⟩ := w
    constructor
    · intro hrej
      simp only [transcribe_audio, hct, Option.getD_some]
      rw [if_neg (by simp [hauth]), if_pos hrej]
    · intro hacc
      simp only [transcribe_audio, hct, Option.getD_some]
      rw [if_neg (by simp [hauth]), if_neg (by simp [hacc])]
      by_cases h3 : req.content.length = 0
      · rw [if_pos h3]
        simp
      · rw [if_neg h3]
        cases tr with
        | error e => simp
        | ok p =>
          obtain ⟨segments, info⟩ := p
          simp
  · intro ct h
    simp [suffixFor, h]

/-- C6 witness: a text/plain upload is rejected with the offending type
echoed in the detail. -/
theorem C6_content_type_witness :
    transcribe_audio none
      (World.mk ("/tmp/f".toList) (Except.ok ([], none)) true)
      (UploadRequest.mk none none (some ("text/plain".toList)) [1]) =
    (HttpResult.err 400 ("Invalid content type: ".toList ++ "text/plain".toList
      ++ ". Expected audio file.".toList), []) :=
  (C6_content_type_validation.2.1 none
    (World.mk ("/tmp/f".toList) (Except.ok ([], none)) true)
    (UploadRequest.mk none none (some ("text/plain".toList)) [1])
    ("text/plain".toList) rfl (by decide)).1 (by decide)

/-- C7: when the inference call fails, the handler returns 500 with the
failure text appended to the fixed prefix, and the event trace holds
exactly one temporary-file creation, exactly one inference invocation
(no retry) and exactly one release attempt of the scoped file. -/
theorem C7_inference_failure_response :
    ∀ apiKey w req ct e, req.content_type = some ct →
      verify_auth apiKey req.authorization req.origin = true →
      acceptsContentType ct = true →
      req.content ≠ [] →
      w.transcription = Except.error e →
      transcribe_audio apiKey w req =
        (HttpResult.err 500 ("Transcription failed: ".toList ++ e),
         [Event.acquire w.tmpName (suffixFor ct),
          Event.invoke w.tmpName 5 true 500,
          Event.release w.tmpName w.unlinkOk]) := by
  intro k w req ct e hct hauth hacc hbody htr
  obtain ⟨tn, tr, uo⟩ := w
  simp only at htr
  subst htr
  simp only [transcribe_audio, hct, Option.getD_some]
  rw [if_neg (by simp [hauth]), if_neg (by simp [hacc]),
    if_neg (by simp [List.length_eq_zero, hbody])]

/-- C7 witness: a failing transcription of a one-byte mp3 upload yields
the 500 response and the acquire-invoke-release trace. -/
theorem C7_inference_failure_witness :
    transcribe_audio none
      (World.mk ("/tmp/d.mp3".toList) (Except.error ("boom".toList)) true)
      (UploadRequest.mk none none (some ("audio/mp3".toList)) [1]) =
    (HttpResult.err 500 ("Transcription failed: boom".toList),
     [Event.acquire ("/tmp/d.mp3".toList) (".mp3".toList),
      Event.invoke ("/tmp/d.mp3".toList) 5 true 500,
      Event.release ("/tmp/d.mp3".toList) true]) :=
  (C7_inference_failure_response none
    (World.mk ("/tmp/d.mp3".toList) (Except.error ("boom".toList)) true)
    (UploadRequest.mk none none (some ("audio/mp3".toList)) [1])
    ("audio/mp3".toList) ("boom".toList) rfl (by decide) (by decide) (by decide)
    rfl).trans (by decide)

/-- C8: the release step never masks the original outcome: for every
request and every transcription outcome, the HTTP-level result is the
same whether the deletion of the temporary file succeeds or fails, so
a failed cleanup is swallowed and changes nothing observable. -/
theorem C8_release_preserves_outcome :
    ∀ apiKey tmpName transcription unlinkOk unlinkOk' req,
      (transcribe_audio apiKey (World.mk tmpName transcription unlinkOk) req).1 =
      (transcribe_audio apiKey (World.mk tmpName transcription unlinkOk') req).1 := by
  intro k tn tr b b' req
  simp only [transcribe_audio]
  by_cases h1 : verify_auth k req.authorization req.origin = false
  · rw [if_pos h1, if_pos h1]
  · rw [if_neg h1, if_neg h1]
    by_cases h2 : acceptsContentType (req.content_type.getD []) = false
    · rw [if_pos h2, if_pos h2]
    · rw [if_neg h2, if_neg h2]
      by_cases h3 : req.content.length = 0
      · rw [if_pos h3, if_pos h3]
      · rw [if_neg h3, if_neg h3]
        cases tr with
        | error e => rfl
        | ok p =>
          obtain ⟨segments, info⟩ := p
          rfl

/-- C9: every inference invocation recorded in any request trace
carries beam size 5, VAD filtering enabled and a minimum silence
duration of 500 ms; no request input can change these parameters. -/
theorem C9_fixed_inference_parameters :
    ∀ apiKey w req path beam vad ms,
      Event.invoke path beam vad ms ∈ (transcribe_audio apiKey w req).2 →
      beam = 5 ∧ vad = true ∧ ms = 500 := by
  intro k w req p beam vad ms h
  obtain ⟨tn, tr, uo⟩ := w
  simp only [transcribe_audio] at h
  by_cases h1 : verify_auth k req.authorization req.origin = false
  · rw [if_pos h1] at h
    simp at h
  · rw [if_neg h1] at h
    by_cases h2 : acceptsContentType (req.content_type.getD []) = false
    · rw [if_pos h2] at h
      simp at h
    · rw [if_neg h2] at h
      by_cases h3 : req.content.length = 0
      · rw [if_pos h3] at h
        simp at h
      · rw [if_neg h3] at h
        cases tr with
        | error e =>
          simp only [List.mem_cons, List.mem_singleton] at h
          rcases h with h | h | h <;> simp_all
        | ok q =>
          obtain ⟨segments, info⟩ := q
          simp only [List.mem_cons, List.mem_singleton] at h
          rcases h with h | h | h <;> simp_all

/-- C9 witness: the parameter theorem applied to the invocation event
of a concrete successful flac request. -/
theorem C9_parameters_witness :
    5 = 5 ∧ true = true ∧ 500 = 500 :=
  C9_fixed_inference_parameters none
    (World.mk ("/tmp/e.flac".toList) (Except.ok ([], none)) true)
    (UploadRequest.mk none none (some ("audio/flac".toList)) [1])
    ("/tmp/e.flac".toList) 5 true 500 (by decide)

/-- C10: an upload with no content type at all is treated as the empty
string and rejected with 400 and the detail naming the empty type, and
no resource event occurs, so it never receives the webm default
suffix. -/
theorem C10_absent_content_type_rejected :
    ∀ apiKey w req, req.content_type = none →
      verify_auth apiKey req.authorization req.origin = true →
      transcribe_audio apiKey w req =
        (HttpResult.err 400 ("Invalid content type: . Expected audio file.".toList),
         []) := by
  intro k w req hct hauth
  simp only [transcribe_audio, hct, Option.getD_none]
  rw [if_neg (by simp [hauth]), if_pos (by decide)]
  decide

/-- C10 witness: a concrete upload without a content type is rejected
with the empty type echoed in the detail. -/
theorem C10_absent_content_type_witness :
    transcribe_audio none
      (World.mk ("/tmp/g".toList) (Except.ok ([], none)) true)
      (UploadRequest.mk none none none [1]) =
    (HttpResult.err 400 ("Invalid content type: . Expected audio file.".toList),
     []) :=
  C10_absent_content_type_rejected none
    (World.mk ("/tmp/g".toList) (Except.ok ([], none)) true)
    (UploadRequest.mk none none none [1]) rfl (by decide)

end Momentum
